import Mathlib

/-!
Shallow embedding of the validation and result-computation core of
`src/app.py` (Milk Supply Prediction & Route Optimization demo).

Numbers are modelled by `ℚ` (exact rationals standing in for Python
floats); `round(x, 2)` is modelled by round-half-to-even at two decimal
places, the rounding performed by the Python builtin.  String splitting, stripping and
float-literal parsing are embedded at the character-list level so that
every definition evaluates inside the kernel.
-/

namespace MilkApp

/-- Python `str.strip()` on a character list: drop whitespace from both ends. -/
def stripChars (cs : List Char) : List Char :=
  ((cs.dropWhile Char.isWhitespace).reverse.dropWhile Char.isWhitespace).reverse

/-- Python `s.strip()`. -/
def pystrip (s : String) : String :=
  String.mk (stripChars s.data)

/-- Python `s.split(",")` on a character list: split at every comma. -/
def splitCommaAux : List Char → List Char → List (List Char)
  | [], acc => [acc.reverse]
  | c :: cs, acc =>
      if c = ',' then acc.reverse :: splitCommaAux cs [] else splitCommaAux cs (c :: acc)

/-- Embeds `[t.strip() for t in s.split(",") if t.strip()]` — the token cleaner used
for the villages, milk and distances fields in `do_POST`. -/
def splitClean (s : String) : List String :=
  (((splitCommaAux s.data []).map (fun cs => String.mk (stripChars cs))).filter
    (fun t => t ≠ ""))

/-- Value of a digit string, most significant first. -/
def digitsVal (cs : List Char) : Nat :=
  cs.foldl (fun a c => a * 10 + (c.toNat - 48)) 0

/-- Unsigned decimal literal: `123`, `85.5`, `.5`, `5.`; anything else is rejected. -/
def parseUnsigned (cs : List Char) : Option ℚ :=
  let ip := cs.takeWhile Char.isDigit
  match cs.dropWhile Char.isDigit with
  | [] => if ip.isEmpty then none else some (digitsVal ip : ℚ)
  | '.' :: fp =>
      if fp.all Char.isDigit && !(ip.isEmpty && fp.isEmpty) then
        some ((digitsVal ip : ℚ) + (digitsVal fp : ℚ) / 10 ^ fp.length)
      else none
  | _ => none

/-- Python `float(s)` on an already-stripped token, restricted to plain decimal
literals with an optional sign (the forms the examples in the spec use). -/
def parseFloat (s : String) : Option ℚ :=
  match s.data with
  | '+' :: cs => parseUnsigned cs
  | '-' :: cs => (parseUnsigned cs).map Neg.neg
  | cs => parseUnsigned cs

/-- Embeds `[float(x) for x in ts]` inside a `try`: all tokens parse or the whole
comprehension fails. -/
def parseAll : List String → Option (List ℚ)
  | [] => some []
  | t :: ts =>
      match parseFloat t, parseAll ts with
      | some v, some vs => some (v :: vs)
      | _, _ => none

/-- Round to the nearest integer, ties to even — Python `round(q)`. -/
def roundHalfEven (q : ℚ) : ℤ :=
  let f := ⌊q⌋
  let r := q - f
  if r < 1 / 2 then f
  else if 1 / 2 < r then f + 1
  else if f % 2 = 0 then f else f + 1

/-- Python `round(q, 2)`. -/
def pyround2 (q : ℚ) : ℚ :=
  (roundHalfEven (q * 100) : ℚ) / 100

/-- Embeds `predict_supply` from `src/app.py`: `[round(max(0.0, val * 1.05), 2) for val in milk_data]`. -/
def predict_supply (milk_data : List ℚ) : List ℚ :=
  milk_data.map (fun val => pyround2 (max 0 (val * 1.05)))

/-- Embeds `optimize_route` from `src/app.py`: identity on villages, optional rounded
sum of distances. -/
def optimize_route (villages : List String) (distances : Option (List ℚ)) :
    List String × Option ℚ :=
  match distances with
  | some ds => (villages, some (pyround2 ds.sum))
  | none => (villages, none)

def msgVillagesEmpty : String := "Please provide at least one village name."
def msgMilkEmpty : String := "Please provide milk collection numbers (comma separated)."
def msgMilkNotNumbers : String := "Milk values must be numbers (e.g. 120, 85.5)."
def msgMilkMismatch : String :=
  "Number of milk data entries does not match number of villages. Provide one value per village or one value to broadcast."
def msgDistNotNumbers : String := "Distance values must be numbers (e.g. 5, 8.2)."
def msgDistMismatch : String := "If you provide distances, provide the same number as villages."
def msgCapacityBad : String := "Vehicle capacity must be a positive number."

/-- The four raw form fields of a POST body (absent fields are `""`, as
`form.get(k, "")` yields). -/
structure FormData where
  villages : String
  milk_data : String
  distances : String
  capacity : String

/-- Outcome of the parsing/validation section of `do_POST`
(lines 127–177 of `src/app.py`). -/
structure Parsed where
  villages : List String
  milk_values : List ℚ
  distances : Option (List ℚ)
  capacity : Option ℚ
  errors : List String

/-- The `# parse milk data` section of `do_POST`: `milk_data = []`, then the
all-or-nothing float parse of the tokens inside `try`/`except` (on failure the
message is collected and `milk_data` is left `[]`). -/
def parseMilkStep (milk_tokens : List String) : List ℚ × List String :=
  if milk_tokens = [] then ([], [])
  else
    match parseAll milk_tokens with
    | some vs => (vs, [])
    | none => ([], [msgMilkNotNumbers])

/-- The `if villages and milk_data:` block of `do_POST`: broadcast a single
milk value across the villages (`milk_data * len(villages)`), or flag a
length mismatch. -/
def broadcastStep (villages : List String) (milk_data0 : List ℚ) :
    List ℚ × List String :=
  if villages ≠ [] ∧ milk_data0 ≠ [] then
    if milk_data0.length = 1 ∧ 1 < villages.length then
      ((List.replicate villages.length milk_data0).flatten, [])
    else if milk_data0.length ≠ villages.length then
      (milk_data0, [msgMilkMismatch])
    else (milk_data0, [])
  else (milk_data0, [])

/-- The `# parse distances (optional)` section of `do_POST`: only a non-blank
raw string is validated; all tokens must parse and match the village count. -/
def parseDistancesStep (villages : List String) (raw_distances : String) :
    Option (List ℚ) × List String :=
  if pystrip raw_distances ≠ "" then
    match parseAll (splitClean raw_distances) with
    | none => (none, [msgDistNotNumbers])
    | some dist_vals =>
        if dist_vals.length ≠ villages.length then (none, [msgDistMismatch])
        else (some dist_vals, [])
  else (none, [])

/-- The `# parse capacity (optional)` section of `do_POST`: a non-blank
trimmed string must parse as a float; a non-positive parse keeps the parsed
value (as the code does) but collects the error message. -/
def parseCapacityStep (raw_capacity_field : String) : Option ℚ × List String :=
  let raw_capacity := pystrip raw_capacity_field
  if raw_capacity ≠ "" then
    match parseFloat raw_capacity with
    | none => (none, [msgCapacityBad])
    | some c => (some c, if c ≤ 0 then [msgCapacityBad] else [])
  else (none, [])

/-- The parsing/validation section of `do_POST` (lines 127–177), section by
section; error messages are collected in program order. -/
def parseForm (form : FormData) : Parsed :=
  let villages := splitClean form.villages
  let e1 := if villages = [] then [msgVillagesEmpty] else []
  let milk_tokens := splitClean form.milk_data
  let e2 := if milk_tokens = [] then [msgMilkEmpty] else []
  let ms := parseMilkStep milk_tokens
  let bs := broadcastStep villages ms.1
  let ds := parseDistancesStep villages form.distances
  let cs := parseCapacityStep form.capacity
  ⟨villages, bs.1, ds.1, cs.1, e1 ++ e2 ++ ms.2 ++ bs.2 ++ ds.2 ++ cs.2⟩

/-- The computed results rendered on success. -/
structure ResultSet where
  predictions : List ℚ
  route : List String
  total_distance : Option ℚ
  total_predicted : ℚ
  capacity : Option ℚ
  capacity_ok : Option Bool

/-- What a POST responds with: collected error messages, and the computed
results when there is no error. -/
structure Response where
  errors : List String
  result : Option ResultSet

/-- The whole `do_POST` core: validate, and either return the errors with no
result, or compute predictions, route, totals and the capacity verdict. -/
def process (form : FormData) : Response :=
  let p := parseForm form
  if p.errors ≠ [] then ⟨p.errors, none⟩
  else
    let predictions := predict_supply p.milk_values
    let rt := optimize_route p.villages p.distances
    let total_predicted := pyround2 predictions.sum
    let capacity_ok := p.capacity.map (fun c => decide (total_predicted ≤ c))
    ⟨[], some ⟨predictions, rt.1, rt.2, total_predicted, p.capacity, capacity_ok⟩⟩

/-! ### Structural helper lemmas -/

theorem optimize_route_fst (villages : List String) (d : Option (List ℚ)) :
    (optimize_route villages d).1 = villages := by
  cases d <;> rfl

theorem flatten_replicate_singleton {α : Type} (n : Nat) (a : α) :
    (List.replicate n [a]).flatten = List.replicate n a := by
  induction n with
  | zero => rfl
  | succ n ih => simp [List.replicate_succ, ih]

theorem parseAll_nil : parseAll [] = some [] := rfl

theorem parseAll_ne_nil {ts : List String} {vs : List ℚ}
    (h : parseAll ts = some vs) (hvs : vs ≠ []) : ts ≠ [] := by
  intro h0
  subst h0
  rw [parseAll_nil] at h
  exact hvs (Option.some.inj h).symm

theorem process_errors (form : FormData) :
    (process form).errors = (parseForm form).errors := by
  simp only [process]
  split
  · rfl
  · next h => exact (not_ne_iff.mp h).symm

theorem process_result_some {form : FormData} {r : ResultSet}
    (hr : (process form).result = some r) :
    (parseForm form).errors = [] ∧
    r = ⟨predict_supply (parseForm form).milk_values,
         (optimize_route (parseForm form).villages (parseForm form).distances).1,
         (optimize_route (parseForm form).villages (parseForm form).distances).2,
         pyround2 (predict_supply (parseForm form).milk_values).sum,
         (parseForm form).capacity,
         (parseForm form).capacity.map (fun c =>
           decide (pyround2 (predict_supply (parseForm form).milk_values).sum ≤ c))⟩ := by
  simp only [process] at hr
  split at hr
  · exact absurd hr (by simp)
  · next h => exact ⟨not_ne_iff.mp h, (Option.some.inj hr).symm⟩

theorem mem_if_singleton {α : Type} {c : Prop} [Decidable c] {a m : α} :
    a ∈ (if c then [m] else []) ↔ c ∧ a = m := by
  split
  · next h => simp [h]
  · next h => simp [h]

theorem parseForm_villages (form : FormData) :
    (parseForm form).villages = splitClean form.villages := rfl

theorem parseForm_milk_values (form : FormData) :
    (parseForm form).milk_values =
      (broadcastStep (splitClean form.villages)
        (parseMilkStep (splitClean form.milk_data)).1).1 := rfl

theorem parseForm_distances (form : FormData) :
    (parseForm form).distances =
      (parseDistancesStep (splitClean form.villages) form.distances).1 := rfl

theorem parseForm_capacity (form : FormData) :
    (parseForm form).capacity = (parseCapacityStep form.capacity).1 := rfl

theorem parseForm_errors (form : FormData) :
    (parseForm form).errors =
      (if splitClean form.villages = [] then [msgVillagesEmpty] else []) ++
      (if splitClean form.milk_data = [] then [msgMilkEmpty] else []) ++
      (parseMilkStep (splitClean form.milk_data)).2 ++
      (broadcastStep (splitClean form.villages)
        (parseMilkStep (splitClean form.milk_data)).1).2 ++
      (parseDistancesStep (splitClean form.villages) form.distances).2 ++
      (parseCapacityStep form.capacity).2 := rfl

/-! ### Step characterization lemmas -/

theorem parseMilkStep_ok {ts : List String} {vs : List ℚ} (hts : ts ≠ [])
    (h : parseAll ts = some vs) : parseMilkStep ts = (vs, []) := by
  simp [parseMilkStep, hts, h]

theorem parseMilkStep_bad {ts : List String} (hts : ts ≠ [])
    (h : parseAll ts = none) : parseMilkStep ts = ([], [msgMilkNotNumbers]) := by
  simp [parseMilkStep, hts, h]

theorem parseMilkStep_snd (ts : List String) :
    (parseMilkStep ts).2 = [] ∨ (parseMilkStep ts).2 = [msgMilkNotNumbers] := by
  simp only [parseMilkStep]
  split
  · exact Or.inl rfl
  · split <;> simp

theorem broadcastStep_snd (villages : List String) (milk_data0 : List ℚ) :
    (broadcastStep villages milk_data0).2 = [] ∨
      (broadcastStep villages milk_data0).2 = [msgMilkMismatch] := by
  simp only [broadcastStep]
  split
  · split
    · simp
    · split <;> simp
  · simp

theorem parseDistancesStep_snd (villages : List String) (raw : String) :
    (parseDistancesStep villages raw).2 = [] ∨
      (parseDistancesStep villages raw).2 = [msgDistNotNumbers] ∨
      (parseDistancesStep villages raw).2 = [msgDistMismatch] := by
  simp only [parseDistancesStep]
  split
  · split
    · simp
    · split <;> simp
  · simp

theorem parseCapacityStep_blank {s : String} (h : pystrip s = "") :
    parseCapacityStep s = (none, []) := by
  simp [parseCapacityStep, h]

theorem parseCapacityStep_msg (s : String) :
    msgCapacityBad ∈ (parseCapacityStep s).2 ↔
      pystrip s ≠ "" ∧
        (parseFloat (pystrip s) = none ∨
          ∃ c, parseFloat (pystrip s) = some c ∧ c ≤ 0) := by
  simp only [parseCapacityStep]
  split
  · next h =>
    cases hpf : parseFloat (pystrip s) with
    | none => simp [h, hpf]
    | some c =>
        by_cases hc : c ≤ 0
        · simp [h, hpf, hc]
        · simp [h, hpf, hc]
  · next h => simp [h]

/-! ### Concrete evaluations shared by witnesses -/

theorem eval_form_A100 :
    (process ⟨"A", "100", "", ""⟩).result =
      some ⟨[105], ["A"], none, 105, none, none⟩ := by
  simp +decide [process, parseForm, parseMilkStep, broadcastStep, parseDistancesStep,
    parseCapacityStep, splitClean, splitCommaAux, stripChars, pystrip,
    parseAll, parseFloat, parseUnsigned, digitsVal, predict_supply, optimize_route,
    pyround2, roundHalfEven, msgVillagesEmpty, msgMilkEmpty, msgMilkNotNumbers,
    msgMilkMismatch, msgDistNotNumbers, msgDistMismatch, msgCapacityBad]
  norm_num

/-! ### Claim theorems -/

/-- C1: for every submission that passes validation, the i-th prediction is
`round(max(0, milk_values[i] * 1.05), 2)` over the broadcast-adjusted milk
values, for every index i. -/
theorem claim_C1 (form : FormData) (r : ResultSet)
    (hr : (process form).result = some r) (i : Nat)
    (hi : i < r.predictions.length) :
    r.predictions.getD i 0 =
      pyround2 (max 0 ((parseForm form).milk_values.getD i 0 * 1.05)) := by
  obtain ⟨-, rfl⟩ := process_result_some hr
  simp only [predict_supply] at hi ⊢
  rw [List.getD_eq_getElem?_getD, List.getD_eq_getElem?_getD, List.getElem?_map]
  rw [List.length_map] at hi
  rw [List.getElem?_eq_getElem hi]
  rfl

/-- C1 witness: villages `"A"`, milk `"100"` gives prediction `105`. -/
theorem claim_C1_witness :
    (⟨[105], ["A"], none, 105, none, none⟩ : ResultSet).predictions.getD 0 0 =
      pyround2 (max 0 ((parseForm ⟨"A", "100", "", ""⟩).milk_values.getD 0 0 * 1.05)) :=
  claim_C1 ⟨"A", "100", "", ""⟩ ⟨[105], ["A"], none, 105, none, none⟩
    eval_form_A100 0 (by decide)

/-- C3: whenever the response carries any error message, no result is
computed. -/
theorem claim_C3 (form : FormData) (h : (process form).errors ≠ []) :
    (process form).result = none := by
  by_cases hp : (parseForm form).errors = []
  · rw [process_errors] at h
    exact absurd hp h
  · simp only [process]
    rw [if_pos hp]

/-- C3 witness: the all-blank submission has errors and no result. -/
theorem claim_C3_witness : (process ⟨"", "", "", ""⟩).result = none :=
  claim_C3 ⟨"", "", "", ""⟩ (by decide)

/-- C8: for every submission that passes validation, the computed route is
exactly the parsed village sequence, in input order. -/
theorem claim_C8 (form : FormData) (r : ResultSet)
    (hr : (process form).result = some r) :
    r.route = splitClean form.villages := by
  obtain ⟨-, rfl⟩ := process_result_some hr
  rw [show (⟨_, (optimize_route (parseForm form).villages (parseForm form).distances).1,
      _, _, _, _⟩ : ResultSet).route =
      (optimize_route (parseForm form).villages (parseForm form).distances).1 from rfl]
  rw [optimize_route_fst, parseForm_villages]

/-- C8 witness: villages `"B, A"` come back as the route `["B", "A"]`. -/
theorem claim_C8_witness :
    (⟨[105, 105], ["B", "A"], none, 210, none, none⟩ : ResultSet).route =
      splitClean "B, A" :=
  claim_C8 ⟨"B, A", "100", "", ""⟩ ⟨[105, 105], ["B", "A"], none, 210, none, none⟩
    (by
      simp +decide [process, parseForm, parseMilkStep, broadcastStep, parseDistancesStep,
        parseCapacityStep, splitClean, splitCommaAux, stripChars, pystrip,
        parseAll, parseFloat, parseUnsigned, digitsVal, predict_supply, optimize_route,
        pyround2, roundHalfEven, msgVillagesEmpty, msgMilkEmpty, msgMilkNotNumbers,
        msgMilkMismatch, msgDistNotNumbers, msgDistMismatch, msgCapacityBad]
      norm_num)

/-- C6: for every submission that passes validation, the reported total
distance is `round(sum(distances), 2)` when distances were provided, and is
absent when the distances field was blank. -/
theorem claim_C6 (form : FormData) (r : ResultSet)
    (hr : (process form).result = some r) :
    (∀ ds, (parseForm form).distances = some ds →
        r.total_distance = some (pyround2 ds.sum)) ∧
    (pystrip form.distances = "" → r.total_distance = none) := by
  obtain ⟨-, rfl⟩ := process_result_some hr
  constructor
  · intro ds hds
    show (optimize_route _ _).2 = _
    rw [hds]
    rfl
  · intro hblank
    show (optimize_route _ _).2 = _
    have hd : (parseForm form).distances = none := by
      rw [parseForm_distances]
      simp [parseDistancesStep, hblank]
    rw [hd]
    rfl

/-- C6 witness: a blank distances field yields no total distance. -/
theorem claim_C6_witness :
    (⟨[105], ["A"], none, 105, none, none⟩ : ResultSet).total_distance = none :=
  (claim_C6 ⟨"A", "100", "", ""⟩ _ eval_form_A100).2 (by decide)

/-- C7: for every submission that passes validation, `capacity_ok` is the
verdict `capacity ≥ total_predicted` when a capacity was provided and absent
otherwise; in particular villages `"A"`, milk `"100"`, capacity `"90"` yields
`capacity_ok = false`. -/
theorem claim_C7 :
    (∀ (form : FormData) (r : ResultSet), (process form).result = some r →
      (∀ c, (parseForm form).capacity = some c →
          r.capacity_ok = some (decide (r.total_predicted ≤ c))) ∧
      ((parseForm form).capacity = none → r.capacity_ok = none)) ∧
    (process ⟨"A", "100", "", "90"⟩).result =
      some ⟨[105], ["A"], none, 105, some 90, some false⟩ := by
  constructor
  · intro form r hr
    obtain ⟨-, rfl⟩ := process_result_some hr
    constructor
    · intro c hc
      show Option.map _ _ = _
      rw [hc]
      rfl
    · intro hc
      show Option.map _ _ = _
      rw [hc]
      rfl
  · simp +decide [process, parseForm, parseMilkStep, broadcastStep, parseDistancesStep,
      parseCapacityStep, splitClean, splitCommaAux, stripChars, pystrip,
      parseAll, parseFloat, parseUnsigned, digitsVal, predict_supply, optimize_route,
      pyround2, roundHalfEven, msgVillagesEmpty, msgMilkEmpty, msgMilkNotNumbers,
      msgMilkMismatch, msgDistNotNumbers, msgDistMismatch, msgCapacityBad]
    norm_num

/-- C7 witness: applying the verdict rule at capacity 90 on the scenario-D
submission gives the recorded `capacity_ok`. -/
theorem claim_C7_witness :
    (⟨[105], ["A"], none, 105, some 90, some false⟩ : ResultSet).capacity_ok =
      some (decide
        ((⟨[105], ["A"], none, 105, some 90, some false⟩ : ResultSet).total_predicted
          ≤ (90 : ℚ))) :=
  (claim_C7.1 ⟨"A", "100", "", "90"⟩ _ claim_C7.2).1 90 (by decide)

/-- C4: validation collects every applicable error independently: each rule
whose condition fails contributes its own message to the error list of the
response, regardless of the other rules. -/
theorem claim_C4 (form : FormData) :
    (splitClean form.villages = [] → msgVillagesEmpty ∈ (process form).errors) ∧
    (splitClean form.milk_data = [] → msgMilkEmpty ∈ (process form).errors) ∧
    (splitClean form.milk_data ≠ [] → parseAll (splitClean form.milk_data) = none →
      msgMilkNotNumbers ∈ (process form).errors) ∧
    (∀ mv, parseAll (splitClean form.milk_data) = some mv → mv ≠ [] →
      splitClean form.villages ≠ [] →
      ¬(mv.length = 1 ∧ 1 < (splitClean form.villages).length) →
      mv.length ≠ (splitClean form.villages).length →
      msgMilkMismatch ∈ (process form).errors) ∧
    (pystrip form.distances ≠ "" → parseAll (splitClean form.distances) = none →
      msgDistNotNumbers ∈ (process form).errors) ∧
    (∀ dv, pystrip form.distances ≠ "" →
      parseAll (splitClean form.distances) = some dv →
      dv.length ≠ (splitClean form.villages).length →
      msgDistMismatch ∈ (process form).errors) ∧
    (pystrip form.capacity ≠ "" →
      (parseFloat (pystrip form.capacity) = none ∨
        ∃ c, parseFloat (pystrip form.capacity) = some c ∧ c ≤ 0) →
      msgCapacityBad ∈ (process form).errors) := by
  refine ⟨?_, ?_, ?_, ?_, ?_, ?_, ?_⟩
  · intro h
    rw [process_errors, parseForm_errors]
    simp [List.mem_append, mem_if_singleton, h]
  · intro h
    rw [process_errors, parseForm_errors]
    simp [List.mem_append, mem_if_singleton, h]
  · intro h1 h2
    rw [process_errors, parseForm_errors, parseMilkStep_bad h1 h2]
    simp [List.mem_append]
  · intro mv h1 h2 h3 h4 h5
    have hts : splitClean form.milk_data ≠ [] := parseAll_ne_nil h1 h2
    rw [process_errors, parseForm_errors, parseMilkStep_ok hts h1]
    simp [List.mem_append, broadcastStep, h2, h3, h4, h5]
  · intro h1 h2
    rw [process_errors, parseForm_errors]
    simp [List.mem_append, parseDistancesStep, h1, h2]
  · intro dv h1 h2 h3
    rw [process_errors, parseForm_errors]
    simp [List.mem_append, parseDistancesStep, h1, h2, h3]
  · intro h1 h2
    rw [process_errors, parseForm_errors]
    have hc := (parseCapacityStep_msg form.capacity).mpr ⟨h1, h2⟩
    simp [List.mem_append, hc]

/-- C4 witness: blank villages and a non-numeric milk token each contribute
their message in the same response. -/
theorem claim_C4_witness :
    msgVillagesEmpty ∈ (process ⟨"", "abc", "", ""⟩).errors ∧
      msgMilkNotNumbers ∈ (process ⟨"", "abc", "", ""⟩).errors :=
  ⟨(claim_C4 ⟨"", "abc", "", ""⟩).1 (by decide),
   (claim_C4 ⟨"", "abc", "", ""⟩).2.2.1 (by decide) (by decide)⟩

/-- C5: a non-blank capacity produces the capacity error exactly when the
string fails to parse as a float or parses to a non-positive value; a blank
capacity produces no capacity error and leaves capacity absent. -/
theorem claim_C5 (form : FormData) :
    (pystrip form.capacity ≠ "" →
      (msgCapacityBad ∈ (process form).errors ↔
        parseFloat (pystrip form.capacity) = none ∨
          ∃ c, parseFloat (pystrip form.capacity) = some c ∧ c ≤ 0)) ∧
    (pystrip form.capacity = "" →
      msgCapacityBad ∉ (process form).errors ∧ (parseForm form).capacity = none) := by
  have hmilk : msgCapacityBad ∉ (parseMilkStep (splitClean form.milk_data)).2 := by
    rcases parseMilkStep_snd (splitClean form.milk_data) with h | h <;> rw [h] <;> decide
  have hcast : msgCapacityBad ∉
      (broadcastStep (splitClean form.villages)
        (parseMilkStep (splitClean form.milk_data)).1).2 := by
    rcases broadcastStep_snd (splitClean form.villages)
      (parseMilkStep (splitClean form.milk_data)).1 with h | h <;> rw [h] <;> decide
  have hdist : msgCapacityBad ∉
      (parseDistancesStep (splitClean form.villages) form.distances).2 := by
    rcases parseDistancesStep_snd (splitClean form.villages) form.distances
      with h | h | h <;> rw [h] <;> decide
  constructor
  · intro hnb
    rw [process_errors, parseForm_errors]
    rw [show (msgCapacityBad ∈
        (if splitClean form.villages = [] then [msgVillagesEmpty] else []) ++
        (if splitClean form.milk_data = [] then [msgMilkEmpty] else []) ++
        (parseMilkStep (splitClean form.milk_data)).2 ++
        (broadcastStep (splitClean form.villages)
          (parseMilkStep (splitClean form.milk_data)).1).2 ++
        (parseDistancesStep (splitClean form.villages) form.distances).2 ++
        (parseCapacityStep form.capacity).2) ↔
        (msgCapacityBad ∈ (parseCapacityStep form.capacity).2) from by
      simp +decide [List.mem_append, mem_if_singleton, hmilk, hcast, hdist]]
    rw [parseCapacityStep_msg]
    simp [hnb]
  · intro hb
    have hcs := parseCapacityStep_blank hb
    refine ⟨?_, ?_⟩
    · rw [process_errors, parseForm_errors]
      simp +decide [List.mem_append, mem_if_singleton, hmilk, hcast, hdist, hcs]
    · rw [parseForm_capacity, hcs]

/-- C5 witness: capacity `"0"` parses but is not strictly positive, so the
capacity error is present. -/
theorem claim_C5_witness :
    msgCapacityBad ∈ (process ⟨"A", "100", "", "0"⟩).errors :=
  ((claim_C5 ⟨"A", "100", "", "0"⟩).1 (by decide)).mpr
    (Or.inr ⟨0, by decide, le_refl 0⟩)

/-- C10: with an empty parsed village list and a non-blank, fully numeric,
non-empty distances field, the distance length-mismatch error is emitted in
addition to the village error, because the length check compares against the
empty village list. -/
theorem claim_C10 (form : FormData) (h1 : splitClean form.villages = [])
    (h2 : pystrip form.distances ≠ "") (dv : List ℚ)
    (h3 : parseAll (splitClean form.distances) = some dv) (h4 : dv ≠ []) :
    msgDistMismatch ∈ (process form).errors ∧
      msgVillagesEmpty ∈ (process form).errors := by
  have h5 : dv.length ≠ ([] : List String).length := by
    simpa using h4
  constructor
  · rw [process_errors, parseForm_errors, h1]
    simp [List.mem_append, parseDistancesStep, h2, h3, h4, h5]
  · rw [process_errors, parseForm_errors, h1]
    simp [List.mem_append]

/-- C10 witness: villages blank, distances `"5"`: both errors present. -/
theorem claim_C10_witness :
    msgDistMismatch ∈ (process ⟨"", "1", "5", ""⟩).errors ∧
      msgVillagesEmpty ∈ (process ⟨"", "1", "5", ""⟩).errors :=
  claim_C10 ⟨"", "1", "5", ""⟩ (by decide) (by decide) [5] (by decide) (by decide)

theorem roundHalfEven_nonneg {q : ℚ} (h : 0 ≤ q) : 0 ≤ roundHalfEven q := by
  have hfl : (0 : ℤ) ≤ ⌊q⌋ := Int.floor_nonneg.mpr h
  simp only [roundHalfEven]
  split
  · exact hfl
  · split
    · omega
    · split
      · exact hfl
      · omega

theorem pyround2_nonneg {q : ℚ} (h : 0 ≤ q) : 0 ≤ pyround2 q := by
  have h100 : (0 : ℚ) ≤ q * 100 := mul_nonneg h (by norm_num)
  have hr : (0 : ℤ) ≤ roundHalfEven (q * 100) := roundHalfEven_nonneg h100
  have hc : (0 : ℚ) ≤ (roundHalfEven (q * 100) : ℚ) := by exact_mod_cast hr
  exact div_nonneg hc (by norm_num)

theorem predict_supply_nonneg (milk : List ℚ) :
    ∀ p ∈ predict_supply milk, 0 ≤ p := by
  intro p hp
  simp only [predict_supply, List.mem_map] at hp
  obtain ⟨v, -, rfl⟩ := hp
  exact pyround2_nonneg (le_max_left 0 _)

/-- C9: negative milk values pass validation without any error, and every
prediction — hence the predicted total — is still non-negative thanks to the
floor at zero. -/
theorem claim_C9 :
    ((process ⟨"A, B", "-5, -7.5", "", ""⟩).errors = [] ∧
      (process ⟨"A, B", "-5, -7.5", "", ""⟩).result =
        some ⟨[0, 0], ["A", "B"], none, 0, none, none⟩) ∧
    (∀ milk : List ℚ, ∀ p ∈ predict_supply milk, 0 ≤ p) ∧
    (∀ (form : FormData) (r : ResultSet), (process form).result = some r →
      0 ≤ r.total_predicted) := by
  refine ⟨⟨?_, ?_⟩, predict_supply_nonneg, ?_⟩
  · simp +decide [process, parseForm, parseMilkStep, broadcastStep, parseDistancesStep,
      parseCapacityStep, splitClean, splitCommaAux, stripChars, pystrip,
      parseAll, parseFloat, parseUnsigned, digitsVal, predict_supply, optimize_route,
      pyround2, roundHalfEven, msgVillagesEmpty, msgMilkEmpty, msgMilkNotNumbers,
      msgMilkMismatch, msgDistNotNumbers, msgDistMismatch, msgCapacityBad]
  · simp +decide [process, parseForm, parseMilkStep, broadcastStep, parseDistancesStep,
      parseCapacityStep, splitClean, splitCommaAux, stripChars, pystrip,
      parseAll, parseFloat, parseUnsigned, digitsVal, predict_supply, optimize_route,
      pyround2, roundHalfEven, msgVillagesEmpty, msgMilkEmpty, msgMilkNotNumbers,
      msgMilkMismatch, msgDistNotNumbers, msgDistMismatch, msgCapacityBad]
    norm_num
  · intro form r hr
    obtain ⟨-, rfl⟩ := process_result_some hr
    show 0 ≤ pyround2 _
    exact pyround2_nonneg (List.sum_nonneg (predict_supply_nonneg _))

/-- C9 witness: the all-negative submission yields total_predicted 0 ≥ 0. -/
theorem claim_C9_witness :
    0 ≤ (⟨[0, 0], ["A", "B"], none, 0, none, none⟩ : ResultSet).total_predicted :=
  claim_C9.2.2 ⟨"A, B", "-5, -7.5", "", ""⟩ _ claim_C9.1.2

/-- C2: with more than one village, submitting a single milk value behaves
identically (same errors, same computed results) to submitting that same
value once per village. -/
theorem claim_C2 (vs ms ms' ds cs : String) (v : ℚ)
    (hN : 1 < (splitClean vs).length)
    (h1 : parseAll (splitClean ms) = some [v])
    (hN' : parseAll (splitClean ms') = some (List.replicate (splitClean vs).length v)) :
    process ⟨vs, ms, ds, cs⟩ = process ⟨vs, ms', ds, cs⟩ := by
  have hvs : splitClean vs ≠ [] := by
    intro h
    rw [h] at hN
    simp at hN
  have hts : splitClean ms ≠ [] := parseAll_ne_nil h1 (by simp)
  have hrep : List.replicate (splitClean vs).length v ≠ [] := by
    intro h
    have h0 : (splitClean vs).length = 0 := by
      have := congrArg List.length h
      simpa using this
    omega
  have hts' : splitClean ms' ≠ [] := parseAll_ne_nil hN' hrep
  have hm : parseMilkStep (splitClean ms) = ([v], []) := parseMilkStep_ok hts h1
  have hm' : parseMilkStep (splitClean ms') =
      (List.replicate (splitClean vs).length v, []) := parseMilkStep_ok hts' hN'
  have hb : broadcastStep (splitClean vs) [v] =
      (List.replicate (splitClean vs).length v, []) := by
    have hc : (splitClean vs ≠ [] ∧ ([v] : List ℚ) ≠ []) := ⟨hvs, by simp⟩
    have hc2 : ([v] : List ℚ).length = 1 ∧ 1 < (splitClean vs).length := ⟨rfl, hN⟩
    simp only [broadcastStep, if_pos hc, if_pos hc2]
    rw [flatten_replicate_singleton]
  have hb' : broadcastStep (splitClean vs) (List.replicate (splitClean vs).length v) =
      (List.replicate (splitClean vs).length v, []) := by
    have hlen : (List.replicate (splitClean vs).length v).length =
        (splitClean vs).length := List.length_replicate _ _
    have hc : (splitClean vs ≠ [] ∧ List.replicate (splitClean vs).length v ≠ []) :=
      ⟨hvs, hrep⟩
    have hc2 : ¬((List.replicate (splitClean vs).length v).length = 1 ∧
        1 < (splitClean vs).length) := by
      rw [hlen]
      omega
    have hc3 : ¬((List.replicate (splitClean vs).length v).length ≠
        (splitClean vs).length) := by
      rw [hlen]
      simp
    simp only [broadcastStep, if_pos hc, if_neg hc2, if_neg hc3]
  have hp : parseForm ⟨vs, ms, ds, cs⟩ = parseForm ⟨vs, ms', ds, cs⟩ := by
    simp only [parseForm]
    rw [hm, hm', hb, hb']
    simp [hts, hts']
  simp only [process, hp]

/-- C2 witness: villages `"A,B"`, milk `"5"` versus milk `"5,5"` give equal
responses. -/
theorem claim_C2_witness :
    process ⟨"A,B", "5", "", ""⟩ = process ⟨"A,B", "5,5", "", ""⟩ :=
  claim_C2 "A,B" "5" "5,5" "" "" 5 (by decide) (by decide) (by decide)

end MilkApp
